import Mathlib

/-!
Shallow embedding of the hierarchical sheet-diff engine of `src/main.py`
(classes `Config`, `CompareResult`, `SheetComparator`).

Modelling choices:
* A polars `DataFrame` becomes `Dataset V`: an ordered list of column names,
  a parallel list of dtype tags (rendered as strings), and a list of rows,
  each row a list of nullable cells (`Option V`).  `V` is the cell value
  type, kept abstract with decidable equality; `toStr : V → String` models
  the `cast(pl.Utf8)` string rendering used by `_generate_differences_df`.
* Python floats become exact rationals `ℚ` (the computations involved are
  single divisions and comparisons against the constant `0.10`).
* `df.hash_rows()` (a polars library routine) is modelled by an arbitrary
  caller-supplied pure per-row function `hash_rows : List (Option V) → Nat`;
  the only property the code relies on is that it is a function of the row.
* polars semantics mirrored cell-for-cell: `a != b` on nullable columns is
  null when either side is null, hence the explicit `fill_null` variants;
  `unpivot` stacks column-major; the join on `Row Index`/`Column Name` is a
  key lookup (keys are unique: unique column names, unique row indices);
  the final `sort` is a merge sort by `(Row Index, Column Name)`.
-/

namespace ExcelCompare

/-- A materialized sheet: ordered column names, parallel dtype tags, and
rows of nullable cells (mirrors the polars `DataFrame` views the code uses:
`df.columns`, `df.dtypes`, `df.shape`, row access). -/
structure Dataset (V : Type) where
  cols : List String
  dtypes : List String
  rows : List (List (Option V))

/-- `df.shape` : (height, width). -/
def Dataset.shape {V : Type} (df : Dataset V) : Nat × Nat :=
  (df.rows.length, df.cols.length)

/-- `df.height`. -/
def Dataset.height {V : Type} (df : Dataset V) : Nat :=
  df.rows.length

/-- Structural well-formedness of a sheet (polars invariants): every row has
one cell per column, one dtype per column, and column names are unique. -/
def Dataset.wf {V : Type} (df : Dataset V) : Prop :=
  (∀ r ∈ df.rows, r.length = df.cols.length) ∧
    df.dtypes.length = df.cols.length ∧ df.cols.Nodup

instance {V : Type} (df : Dataset V) : Decidable df.wf := by
  unfold Dataset.wf; infer_instance

/-- `@dataclass CompareResult` of `main.py` (floats as exact rationals). -/
structure CompareResult where
  status : String
  match_rate : ℚ
  details : String
  shape1 : Nat × Nat
  shape2 : Nat × Nat
deriving DecidableEq, Repr

/-- One record of the differences DataFrame produced by
`_generate_differences_df`: columns `Row Index`, `Column Name`,
`Column type`, `Value V1`, `Value V2` (values already cast to Utf8,
nullable). -/
structure CellDifference where
  rowIndex : Nat
  columnName : String
  columnType : String
  valueV1 : Option String
  valueV2 : Option String
deriving DecidableEq, Repr

namespace Config

/-- `Config.MISMATCH_THRESHOLD = 0.10`. -/
def MISMATCH_THRESHOLD : ℚ := 1 / 10

end Config

/-- polars `(c1 != c2).fill_null(False)`: inequality of two nullable cells,
null (either side) treated as False. -/
def neq_fill_false {V : Type} [DecidableEq V] (c1 c2 : Option V) : Bool :=
  match c1, c2 with
  | some x, some y => decide (x ≠ y)
  | _, _ => false

/-- The per-cell mismatch expression of `_compare_data` (field-wise
strategy): `(c1.is_null & c2.is_not_null) | (c1.is_not_null & c2.is_null) |
((c1 != c2).fill_null(False))`. -/
def is_diff {V : Type} [DecidableEq V] (c1 c2 : Option V) : Bool :=
  (c1.isNone && c2.isSome) || (c1.isSome && c2.isNone) || neq_fill_false c1 c2

/-- `pl.any_horizontal` of the per-column `is_diff` expressions on one
(positionally aligned) row pair. -/
def row_mismatch {V : Type} [DecidableEq V] (r1 r2 : List (Option V)) : Bool :=
  (List.zipWith is_diff r1 r2).any id

/-- The boolean mismatch series of `_compare_data`: per-row hash inequality
when `use_hash`, otherwise the null-safe field-wise any-column check. -/
def mismatch_mask {V : Type} [DecidableEq V] (use_hash : Bool)
    (hash_rows : List (Option V) → Nat) (df1 df2 : Dataset V) : List Bool :=
  if use_hash then
    List.zipWith (fun r1 r2 => hash_rows r1 != hash_rows r2) df1.rows df2.rows
  else
    List.zipWith row_mismatch df1.rows df2.rows

/-- `df.with_row_index("Row Index")` followed by `.filter(mismatch_mask)`:
rows tagged with their original index, restricted to mask-true positions. -/
def filter_mask_from {α : Type} (i : Nat) (mask : List Bool) (rows : List α) :
    List (Nat × α) :=
  match mask, rows with
  | true :: ms, r :: rs => (i, r) :: filter_mask_from (i + 1) ms rs
  | false :: ms, _ :: rs => filter_mask_from (i + 1) ms rs
  | _, _ => []

/-- Indexing starts at 0, as `with_row_index` does. -/
def with_row_index_filter {α : Type} (mask : List Bool) (rows : List α) :
    List (Nat × α) :=
  filter_mask_from 0 mask rows

/-- `pl.col(c).cast(pl.Utf8)` applied to a whole row: render each non-null
cell to its string form, keep nulls. -/
def cast_str {V : Type} (toStr : V → String) (r : List (Option V)) :
    List (Option String) :=
  r.map (Option.map toStr)

/-- `unpivot(index="Row Index", ...)`, column-major as polars stacks it:
for each column (with its positional index `j`), one long-format record per
retained row. -/
def unpivot_from (j : Nat) (cols : List String)
    (rows : List (Nat × List (Option String))) :
    List (Nat × String × Option String) :=
  match cols with
  | [] => []
  | c :: cs =>
    rows.map (fun p => (p.1, c, p.2.getD j none)) ++ unpivot_from (j + 1) cs rows

/-- The full unpivot of an indexed, string-cast frame. -/
def unpivot (cols : List String) (rows : List (Nat × List (Option String))) :
    List (Nat × String × Option String) :=
  unpivot_from 0 cols rows

/-- Lookup of the value carried by the long-format record with key
`(Row Index, Column Name) = (i, c)` (join keys are unique in both frames). -/
def lookup_cell (i : Nat) (c : String)
    (melted : List (Nat × String × Option String)) : Option (Option String) :=
  (melted.find? (fun q => q.1 == i && q.2.1 == c)).map (fun q => q.2.2)

/-- `melt1.join(melt2, on=["Row Index", "Column Name"])` (inner join on the
unique key). -/
def join_on_idx_col (m1 m2 : List (Nat × String × Option String)) :
    List (Nat × String × Option String × Option String) :=
  m1.filterMap (fun q =>
    (lookup_cell q.1 q.2.1 m2).map (fun v2 => (q.1, q.2.1, q.2.2, v2)))

/-- The cell-level re-filter of `_generate_differences_df`:
`(V1 != V2).fill_null(True) & ~(V1.is_null() & V2.is_null())`. -/
def diff_cell_filter (v1 v2 : Option String) : Bool :=
  (match v1, v2 with
   | some a, some b => decide (a ≠ b)
   | _, _ => true) && !(v1.isNone && v2.isNone)

/-- Lookup in the schema frame `{"Column Name": df1.columns, "Column type":
df1.dtypes}` used by the final join. -/
def schema_lookup (cols dtypes : List String) (c : String) : Option String :=
  ((cols.zip dtypes).find? (fun p => p.1 == c)).map (fun p => p.2)

/-- The sort key of `.sort(["Row Index", "Column Name"])`: lexicographic on
(row index, column name), column names compared as text. -/
def diff_le (a b : CellDifference) : Bool :=
  decide (a.rowIndex < b.rowIndex) ||
    (a.rowIndex == b.rowIndex && decide (a.columnName ≤ b.columnName))

/-- `SheetComparator._generate_differences_df`. -/
def generate_differences_df {V : Type} (toStr : V → String)
    (df1 df2 : Dataset V) (mask : List Bool) : List CellDifference :=
  let idx1 := with_row_index_filter mask df1.rows
  let idx2 := with_row_index_filter mask df2.rows
  let str1 := idx1.map (fun p => (p.1, cast_str toStr p.2))
  let str2 := idx2.map (fun p => (p.1, cast_str toStr p.2))
  let melt1 := unpivot df1.cols str1
  let melt2 := unpivot df2.cols str2
  let joined := join_on_idx_col melt1 melt2
  let filtered := joined.filter (fun q => diff_cell_filter q.2.2.1 q.2.2.2)
  let typed := filtered.filterMap (fun q =>
    (schema_lookup df1.cols df1.dtypes q.2.1).map
      (fun t => CellDifference.mk q.1 q.2.1 t q.2.2.1 q.2.2.2))
  typed.mergeSort diff_le

/-- `SheetComparator._compare_data` (`shape1`/`shape2` passed through as in
the source; `use_hash` is the comparator's constructor flag). -/
def compare_data {V : Type} [DecidableEq V] (use_hash : Bool)
    (hash_rows : List (Option V) → Nat) (toStr : V → String)
    (df1 df2 : Dataset V) (shape1 shape2 : Nat × Nat) :
    CompareResult × Option (List CellDifference) :=
  let mask := mismatch_mask use_hash hash_rows df1 df2
  let mismatch_count := mask.count true
  let total_rows := df1.height
  let match_rate : ℚ := ((total_rows : ℚ) - (mismatch_count : ℚ)) / (total_rows : ℚ)
  if mismatch_count = 0 then
    (⟨"Perfect match", 1, "", shape1, shape2⟩, none)
  else if (mismatch_count : ℚ) / (total_rows : ℚ) > Config.MISMATCH_THRESHOLD then
    -- f-string: MISMATCH_THRESHOLD*100 renders as the float "10.0" in Python
    (⟨"Data mismatch >10.0%", match_rate,
      toString mismatch_count ++ " rows differ.", shape1, shape2⟩, none)
  else
    (⟨"Data mismatch", match_rate,
      toString mismatch_count ++ " rows differ.", shape1, shape2⟩,
      some (generate_differences_df toStr df1 df2 mask))

/-- `set(df1.columns) ^ set(df2.columns)`, rendered as a list in canonical
order (first-frame names first; Python's set iteration order is
unspecified, so some canonical order must be chosen for the embedding). -/
def symm_diff_cols (cs1 cs2 : List String) : List String :=
  cs1.filter (fun c => !(cs2.contains c)) ++ cs2.filter (fun c => !(cs1.contains c))

/-- The dict comprehension of the type-mismatch branch: each column whose
two dtypes differ, with both dtype tags. -/
def type_diffs (cols dt1 dt2 : List String) : List (String × String × String) :=
  (cols.zip (dt1.zip dt2)).filter (fun p => p.2.1 != p.2.2)

/-- `SheetComparator.compare`: the hierarchical early-stopping cascade
(shape → column names → dtypes → empty → row data). -/
def compare {V : Type} [DecidableEq V] (use_hash : Bool)
    (hash_rows : List (Option V) → Nat) (toStr : V → String)
    (df1 df2 : Dataset V) : CompareResult × Option (List CellDifference) :=
  let shape1 := df1.shape
  let shape2 := df2.shape
  if shape1 ≠ shape2 then
    (⟨"Shape mismatch", 0,
      "V1: " ++ toString shape1 ++ ", V2: " ++ toString shape2,
      shape1, shape2⟩, none)
  else if df1.cols ≠ df2.cols then
    (⟨"Column names mismatch", 0,
      "Diff cols: " ++ toString (symm_diff_cols df1.cols df2.cols),
      shape1, shape2⟩, none)
  else if df1.dtypes ≠ df2.dtypes then
    (⟨"Column type mismatch", 0,
      "Type diffs: " ++ toString (type_diffs df1.cols df1.dtypes df2.dtypes),
      shape1, shape2⟩, none)
  else if shape1.1 = 0 then
    (⟨"Perfect match", 1, "Files are empty (Headers only)", shape1, shape2⟩, none)
  else
    compare_data use_hash hash_rows toStr df1 df2 shape1 shape2

/-! ### Branch-reduction lemmas for `compare` -/

theorem compare_shape_ne {V : Type} [DecidableEq V] {use_hash : Bool}
    {hash_rows : List (Option V) → Nat} {toStr : V → String}
    {df1 df2 : Dataset V} (h : df1.shape ≠ df2.shape) :
    compare use_hash hash_rows toStr df1 df2 =
      (⟨"Shape mismatch", 0,
        "V1: " ++ toString df1.shape ++ ", V2: " ++ toString df2.shape,
        df1.shape, df2.shape⟩, none) := by
  simp only [compare]
  rw [if_pos h]

theorem compare_cols_ne {V : Type} [DecidableEq V] {use_hash : Bool}
    {hash_rows : List (Option V) → Nat} {toStr : V → String}
    {df1 df2 : Dataset V} (h1 : df1.shape = df2.shape) (h2 : df1.cols ≠ df2.cols) :
    compare use_hash hash_rows toStr df1 df2 =
      (⟨"Column names mismatch", 0,
        "Diff cols: " ++ toString (symm_diff_cols df1.cols df2.cols),
        df1.shape, df2.shape⟩, none) := by
  simp only [compare]
  rw [if_neg (fun hn => hn h1), if_pos h2]

theorem compare_dtypes_ne {V : Type} [DecidableEq V] {use_hash : Bool}
    {hash_rows : List (Option V) → Nat} {toStr : V → String}
    {df1 df2 : Dataset V} (h1 : df1.shape = df2.shape) (h2 : df1.cols = df2.cols)
    (h3 : df1.dtypes ≠ df2.dtypes) :
    compare use_hash hash_rows toStr df1 df2 =
      (⟨"Column type mismatch", 0,
        "Type diffs: " ++ toString (type_diffs df1.cols df1.dtypes df2.dtypes),
        df1.shape, df2.shape⟩, none) := by
  simp only [compare]
  rw [if_neg (fun hn => hn h1), if_neg (fun hn => hn h2), if_pos h3]

theorem compare_empty {V : Type} [DecidableEq V] {use_hash : Bool}
    {hash_rows : List (Option V) → Nat} {toStr : V → String}
    {df1 df2 : Dataset V} (h1 : df1.shape = df2.shape) (h2 : df1.cols = df2.cols)
    (h3 : df1.dtypes = df2.dtypes) (h0 : df1.shape.1 = 0) :
    compare use_hash hash_rows toStr df1 df2 =
      (⟨"Perfect match", 1, "Files are empty (Headers only)",
        df1.shape, df2.shape⟩, none) := by
  simp only [compare]
  rw [if_neg (fun hn => hn h1), if_neg (fun hn => hn h2), if_neg (fun hn => hn h3),
    if_pos h0]

theorem compare_to_data {V : Type} [DecidableEq V] {use_hash : Bool}
    {hash_rows : List (Option V) → Nat} {toStr : V → String}
    {df1 df2 : Dataset V} (h1 : df1.shape = df2.shape) (h2 : df1.cols = df2.cols)
    (h3 : df1.dtypes = df2.dtypes) (h0 : df1.shape.1 ≠ 0) :
    compare use_hash hash_rows toStr df1 df2 =
      compare_data use_hash hash_rows toStr df1 df2 df1.shape df2.shape := by
  simp only [compare]
  rw [if_neg (fun hn => hn h1), if_neg (fun hn => hn h2), if_neg (fun hn => hn h3),
    if_neg h0]

/-! ### Branch-reduction lemmas for `compare_data` -/

theorem compare_data_perfect {V : Type} [DecidableEq V] {use_hash : Bool}
    {hash_rows : List (Option V) → Nat} {toStr : V → String}
    {df1 df2 : Dataset V} {s1 s2 : Nat × Nat}
    (h : (mismatch_mask use_hash hash_rows df1 df2).count true = 0) :
    compare_data use_hash hash_rows toStr df1 df2 s1 s2 =
      (⟨"Perfect match", 1, "", s1, s2⟩, none) := by
  simp only [compare_data]
  rw [if_pos h]

theorem compare_data_threshold {V : Type} [DecidableEq V] {use_hash : Bool}
    {hash_rows : List (Option V) → Nat} {toStr : V → String}
    {df1 df2 : Dataset V} {s1 s2 : Nat × Nat}
    (h : (mismatch_mask use_hash hash_rows df1 df2).count true ≠ 0)
    (hth : ((mismatch_mask use_hash hash_rows df1 df2).count true : ℚ) /
      (df1.height : ℚ) > Config.MISMATCH_THRESHOLD) :
    compare_data use_hash hash_rows toStr df1 df2 s1 s2 =
      (⟨"Data mismatch >10.0%",
        ((df1.height : ℚ) - ((mismatch_mask use_hash hash_rows df1 df2).count true : ℚ)) /
          (df1.height : ℚ),
        toString ((mismatch_mask use_hash hash_rows df1 df2).count true) ++
          " rows differ.", s1, s2⟩, none) := by
  simp only [compare_data]
  rw [if_neg h, if_pos hth]

theorem compare_data_within {V : Type} [DecidableEq V] {use_hash : Bool}
    {hash_rows : List (Option V) → Nat} {toStr : V → String}
    {df1 df2 : Dataset V} {s1 s2 : Nat × Nat}
    (h : (mismatch_mask use_hash hash_rows df1 df2).count true ≠ 0)
    (hth : ¬(((mismatch_mask use_hash hash_rows df1 df2).count true : ℚ) /
      (df1.height : ℚ) > Config.MISMATCH_THRESHOLD)) :
    compare_data use_hash hash_rows toStr df1 df2 s1 s2 =
      (⟨"Data mismatch",
        ((df1.height : ℚ) - ((mismatch_mask use_hash hash_rows df1 df2).count true : ℚ)) /
          (df1.height : ℚ),
        toString ((mismatch_mask use_hash hash_rows df1 df2).count true) ++
          " rows differ.", s1, s2⟩,
        some (generate_differences_df toStr df1 df2
          (mismatch_mask use_hash hash_rows df1 df2))) := by
  simp only [compare_data]
  rw [if_neg h, if_neg hth]

/-- The mismatch series has one entry per (positionally paired) row. -/
theorem mismatch_mask_length {V : Type} [DecidableEq V] (use_hash : Bool)
    (hash_rows : List (Option V) → Nat) (df1 df2 : Dataset V) :
    (mismatch_mask use_hash hash_rows df1 df2).length =
      min df1.rows.length df2.rows.length := by
  unfold mismatch_mask
  split <;> simp

/-- Arithmetic of the match rate `(n - c) / n` for `c ≤ n`, `0 < n`. -/
theorem rate_bounds_eq (c n : ℕ) (hc : c ≤ n) (hn : 0 < n) :
    (0 ≤ ((n : ℚ) - (c : ℚ)) / (n : ℚ) ∧ ((n : ℚ) - (c : ℚ)) / (n : ℚ) ≤ 1) ∧
      ((n : ℚ) - (c : ℚ)) / (n : ℚ) = 1 - (c : ℚ) / (n : ℚ) := by
  have hn' : (0 : ℚ) < (n : ℚ) := by exact_mod_cast hn
  have hc' : (c : ℚ) ≤ (n : ℚ) := by exact_mod_cast hc
  have hc0 : (0 : ℚ) ≤ (c : ℚ) := by positivity
  refine ⟨⟨div_nonneg (by linarith) (le_of_lt hn'), ?_⟩, ?_⟩
  · rw [div_le_one hn']
    linarith
  · rw [sub_div, div_self (ne_of_gt hn')]

/-- The mismatch count never exceeds the first dataset's height. -/
theorem count_le_height {V : Type} [DecidableEq V] (use_hash : Bool)
    (hash_rows : List (Option V) → Nat) (df1 df2 : Dataset V) :
    (mismatch_mask use_hash hash_rows df1 df2).count true ≤ df1.height := by
  calc (mismatch_mask use_hash hash_rows df1 df2).count true
      ≤ (mismatch_mask use_hash hash_rows df1 df2).length := List.count_le_length _ _
    _ = min df1.rows.length df2.rows.length := mismatch_mask_length _ _ _ _
    _ ≤ df1.rows.length := Nat.min_le_left _ _

/-! ### Claims about the early-stopping cascade -/

/-- C7: whenever the two datasets' shapes differ, `compare` returns the
terminal shape-mismatch result: status "Shape mismatch", match rate 0, no
diff output, details carrying both shapes (also stored in the result's
shape fields), independent of the datasets' contents — the result is
exactly the stage-1 early return, so no later stage runs. -/
theorem claim_C7 {V : Type} [DecidableEq V] (use_hash : Bool)
    (hash_rows : List (Option V) → Nat) (toStr : V → String)
    (df1 df2 : Dataset V) (h : df1.shape ≠ df2.shape) :
    (compare use_hash hash_rows toStr df1 df2).1.status = "Shape mismatch" ∧
    (compare use_hash hash_rows toStr df1 df2).1.match_rate = 0 ∧
    (compare use_hash hash_rows toStr df1 df2).2 = none ∧
    (compare use_hash hash_rows toStr df1 df2).1.details =
      "V1: " ++ toString df1.shape ++ ", V2: " ++ toString df2.shape ∧
    (compare use_hash hash_rows toStr df1 df2).1.shape1 = df1.shape ∧
    (compare use_hash hash_rows toStr df1 df2).1.shape2 = df2.shape := by
  rw [compare_shape_ne h]
  exact ⟨rfl, rfl, rfl, rfl, rfl, rfl⟩

/-- Witness for C7 at a concrete input: a 1-row and a 0-row single-column
dataset. -/
theorem claim_C7_witness :
    (compare false (fun _ => 0) toString
      (⟨["a"], ["i64"], [[some (1 : Nat)]]⟩ : Dataset Nat)
      (⟨["a"], ["i64"], []⟩ : Dataset Nat)).1.status = "Shape mismatch" :=
  (claim_C7 false (fun _ => 0) toString
    ⟨["a"], ["i64"], [[some (1 : Nat)]]⟩ ⟨["a"], ["i64"], []⟩ (by decide)).1

/-- C8: equal shapes, equal column names, equal dtypes and zero rows
(headers only) yield the terminal perfect-match result with rate 1.0 and
no diff output — the stage-4 early return, so row matching never runs. -/
theorem claim_C8 {V : Type} [DecidableEq V] (use_hash : Bool)
    (hash_rows : List (Option V) → Nat) (toStr : V → String)
    (df1 df2 : Dataset V) (h1 : df1.shape = df2.shape) (h2 : df1.cols = df2.cols)
    (h3 : df1.dtypes = df2.dtypes) (hr : df1.rows.length = 0) :
    (compare use_hash hash_rows toStr df1 df2).1.status = "Perfect match" ∧
    (compare use_hash hash_rows toStr df1 df2).1.match_rate = 1 ∧
    (compare use_hash hash_rows toStr df1 df2).2 = none ∧
    (compare use_hash hash_rows toStr df1 df2).1.details =
      "Files are empty (Headers only)" := by
  rw [compare_empty h1 h2 h3 hr]
  exact ⟨rfl, rfl, rfl, rfl⟩

/-- Witness for C8 at a concrete input: two headers-only datasets. -/
theorem claim_C8_witness :
    (compare false (fun _ => 0) toString
      (⟨["a", "b"], ["i64", "str"], []⟩ : Dataset Nat)
      (⟨["a", "b"], ["i64", "str"], []⟩ : Dataset Nat)).1.match_rate = 1 :=
  (claim_C8 false (fun _ => 0) toString
    ⟨["a", "b"], ["i64", "str"], []⟩ ⟨["a", "b"], ["i64", "str"], []⟩
    rfl rfl rfl rfl).2.1

/-- C10: when the four structural guards pass (equal shapes, equal column
names, equal dtypes, nonzero height), `compare` hands control to
`compare_data`, and the divisor `total_rows = df1.height` of the
`match_rate` division there is at least 1 — the division is never a
division by zero, for either strategy. -/
theorem claim_C10 {V : Type} [DecidableEq V] (use_hash : Bool)
    (hash_rows : List (Option V) → Nat) (toStr : V → String)
    (df1 df2 : Dataset V) (h1 : df1.shape = df2.shape) (h2 : df1.cols = df2.cols)
    (h3 : df1.dtypes = df2.dtypes) (h0 : df1.shape.1 ≠ 0) :
    0 < df1.height ∧
    compare use_hash hash_rows toStr df1 df2 =
      compare_data use_hash hash_rows toStr df1 df2 df1.shape df2.shape := by
  exact ⟨Nat.pos_of_ne_zero h0, compare_to_data h1 h2 h3 h0⟩

/-- Witness for C10 at a concrete input: one-row identical datasets. -/
theorem claim_C10_witness :
    0 < (⟨["a"], ["i64"], [[some (1 : Nat)]]⟩ : Dataset Nat).height :=
  (claim_C10 true (fun _ => 0) toString
    ⟨["a"], ["i64"], [[some (1 : Nat)]]⟩ ⟨["a"], ["i64"], [[some (1 : Nat)]]⟩
    rfl rfl rfl (by decide)).1

/-- C6: same shape, same column-name *set*, different column-name
*sequence*: the proceed/stop decision compares the ordered sequences, so
the pair is classified "Column names mismatch" (terminal, rate 0, no
diffs), and the details render the symmetric-difference set of names —
which is empty here, since the sets coincide. -/
theorem claim_C6 {V : Type} [DecidableEq V] (use_hash : Bool)
    (hash_rows : List (Option V) → Nat) (toStr : V → String)
    (df1 df2 : Dataset V) (h1 : df1.shape = df2.shape)
    (hne : df1.cols ≠ df2.cols) (hset : ∀ c, c ∈ df1.cols ↔ c ∈ df2.cols) :
    (compare use_hash hash_rows toStr df1 df2).1.status = "Column names mismatch" ∧
    (compare use_hash hash_rows toStr df1 df2).1.match_rate = 0 ∧
    (compare use_hash hash_rows toStr df1 df2).2 = none ∧
    (compare use_hash hash_rows toStr df1 df2).1.details =
      "Diff cols: " ++ toString (symm_diff_cols df1.cols df2.cols) ∧
    symm_diff_cols df1.cols df2.cols = [] := by
  rw [compare_cols_ne h1 hne]
  refine ⟨rfl, rfl, rfl, rfl, ?_⟩
  rw [List.eq_nil_iff_forall_not_mem]
  intro c hc
  rcases List.mem_append.mp hc with h | h
  · rcases List.mem_filter.mp h with ⟨hc1, hb⟩
    have hm : c ∈ df2.cols := (hset c).mp hc1
    simp [hm] at hb
  · rcases List.mem_filter.mp h with ⟨hc2, hb⟩
    have hm : c ∈ df1.cols := (hset c).mpr hc2
    simp [hm] at hb

/-- Witness for C6 at a concrete input: the same two column names in the
two possible orders. -/
theorem claim_C6_witness :
    (compare false (fun _ => 0) toString
      (⟨["a", "b"], ["i64", "i64"], []⟩ : Dataset Nat)
      (⟨["b", "a"], ["i64", "i64"], []⟩ : Dataset Nat)).1.status =
      "Column names mismatch" :=
  (claim_C6 false (fun _ => 0) toString
    ⟨["a", "b"], ["i64", "i64"], []⟩ ⟨["b", "a"], ["i64", "i64"], []⟩
    rfl (by decide) (fun c => by simp [List.mem_cons]; tauto)).1

/-- C5: for every input pair and every strategy the returned match rate is
in [0, 1]; and whenever the row-comparison stage executes (all four
structural guards pass), the rate equals
`1 - mismatch_count / rows`, where `mismatch_count` counts the true
entries of the mismatch indicator. -/
theorem claim_C5 {V : Type} [DecidableEq V] (use_hash : Bool)
    (hash_rows : List (Option V) → Nat) (toStr : V → String)
    (df1 df2 : Dataset V) :
    (0 ≤ (compare use_hash hash_rows toStr df1 df2).1.match_rate ∧
      (compare use_hash hash_rows toStr df1 df2).1.match_rate ≤ 1) ∧
    (df1.shape = df2.shape → df1.cols = df2.cols → df1.dtypes = df2.dtypes →
      df1.shape.1 ≠ 0 →
      (compare use_hash hash_rows toStr df1 df2).1.match_rate =
        1 - ((mismatch_mask use_hash hash_rows df1 df2).count true : ℚ) /
          (df1.height : ℚ)) := by
  by_cases h1 : df1.shape = df2.shape
  · by_cases h2 : df1.cols = df2.cols
    · by_cases h3 : df1.dtypes = df2.dtypes
      · by_cases h0 : df1.shape.1 = 0
        · rw [compare_empty h1 h2 h3 h0]
          exact ⟨⟨by norm_num, by norm_num⟩, fun _ _ _ hd => absurd h0 hd⟩
        · rw [compare_to_data h1 h2 h3 h0]
          have hn : 0 < df1.height := Nat.pos_of_ne_zero h0
          have hcle := count_le_height use_hash hash_rows df1 df2
          by_cases hc : (mismatch_mask use_hash hash_rows df1 df2).count true = 0
          · rw [compare_data_perfect hc]
            refine ⟨⟨by norm_num, by norm_num⟩, fun _ _ _ _ => ?_⟩
            rw [hc]
            norm_num
          · rcases rate_bounds_eq _ _ hcle hn with ⟨hb, he⟩
            by_cases hth : ((mismatch_mask use_hash hash_rows df1 df2).count true : ℚ) /
                (df1.height : ℚ) > Config.MISMATCH_THRESHOLD
            · rw [compare_data_threshold hc hth]
              exact ⟨hb, fun _ _ _ _ => he⟩
            · rw [compare_data_within hc hth]
              exact ⟨hb, fun _ _ _ _ => he⟩
      · rw [compare_dtypes_ne h1 h2 h3]
        exact ⟨⟨by norm_num, by norm_num⟩, fun _ _ hcq _ => absurd hcq h3⟩
    · rw [compare_cols_ne h1 h2]
      exact ⟨⟨by norm_num, by norm_num⟩, fun _ hcq _ _ => absurd hcq h2⟩
  · rw [compare_shape_ne h1]
    exact ⟨⟨by norm_num, by norm_num⟩, fun hcq _ _ _ => absurd hcq h1⟩

/-- Witness for C5 at a concrete input: two one-row datasets that differ. -/
theorem claim_C5_witness :
    0 ≤ (compare false (fun _ => 0) toString
      (⟨["a"], ["i64"], [[some (1 : Nat)]]⟩ : Dataset Nat)
      (⟨["a"], ["i64"], [[some (2 : Nat)]]⟩ : Dataset Nat)).1.match_rate :=
  (claim_C5 false (fun _ => 0) toString
    ⟨["a"], ["i64"], [[some (1 : Nat)]]⟩ ⟨["a"], ["i64"], [[some (2 : Nat)]]⟩).1.1

/-- C4: when row comparison executes and the mismatch ratio exceeds the
fixed 10% threshold, `compare` returns the terminal high-mismatch result:
its status is the threshold status, its match rate is the computed
`1 - mismatch_count / rows` (strictly below 1), and no diff is attached —
the diff-generation step does not run. -/
theorem claim_C4 {V : Type} [DecidableEq V] (use_hash : Bool)
    (hash_rows : List (Option V) → Nat) (toStr : V → String)
    (df1 df2 : Dataset V) (h1 : df1.shape = df2.shape) (h2 : df1.cols = df2.cols)
    (h3 : df1.dtypes = df2.dtypes) (h0 : df1.shape.1 ≠ 0)
    (hth : ((mismatch_mask use_hash hash_rows df1 df2).count true : ℚ) /
      (df1.height : ℚ) > Config.MISMATCH_THRESHOLD) :
    (compare use_hash hash_rows toStr df1 df2).1.status = "Data mismatch >10.0%" ∧
    (compare use_hash hash_rows toStr df1 df2).1.match_rate =
      1 - ((mismatch_mask use_hash hash_rows df1 df2).count true : ℚ) /
        (df1.height : ℚ) ∧
    (compare use_hash hash_rows toStr df1 df2).1.match_rate < 1 ∧
    (compare use_hash hash_rows toStr df1 df2).2 = none := by
  have hc : (mismatch_mask use_hash hash_rows df1 df2).count true ≠ 0 := by
    intro h
    rw [h] at hth
    norm_num [Config.MISMATCH_THRESHOLD] at hth
  have hn : 0 < df1.height := Nat.pos_of_ne_zero h0
  have hcle := count_le_height use_hash hash_rows df1 df2
  rcases rate_bounds_eq _ _ hcle hn with ⟨_, he⟩
  rw [compare_to_data h1 h2 h3 h0, compare_data_threshold hc hth]
  refine ⟨rfl, he, ?_, rfl⟩
  have hpos : (0 : ℚ) <
      ((mismatch_mask use_hash hash_rows df1 df2).count true : ℚ) / (df1.height : ℚ) :=
    lt_trans (by norm_num [Config.MISMATCH_THRESHOLD]) hth
  calc (((df1.height : ℚ) -
        ((mismatch_mask use_hash hash_rows df1 df2).count true : ℚ)) / (df1.height : ℚ))
      = 1 - ((mismatch_mask use_hash hash_rows df1 df2).count true : ℚ) /
        (df1.height : ℚ) := he
    _ < 1 := by linarith

/-- Witness for C4 at a concrete input: one of two rows differs (ratio
1/2 > 1/10). -/
theorem claim_C4_witness :
    (compare false (fun _ => 0) toString
      (⟨["a"], ["i64"], [[some (1 : Nat)], [some (2 : Nat)]]⟩ : Dataset Nat)
      (⟨["a"], ["i64"], [[some (1 : Nat)], [some (99 : Nat)]]⟩ : Dataset Nat)).1.status =
      "Data mismatch >10.0%" :=
  (claim_C4 false (fun _ => 0) toString
    ⟨["a"], ["i64"], [[some (1 : Nat)], [some (2 : Nat)]]⟩
    ⟨["a"], ["i64"], [[some (1 : Nat)], [some (99 : Nat)]]⟩
    rfl rfl rfl (by decide)
    (by
      rw [show (mismatch_mask false (fun _ => 0)
          (⟨["a"], ["i64"], [[some (1 : Nat)], [some (2 : Nat)]]⟩ : Dataset Nat)
          (⟨["a"], ["i64"], [[some (1 : Nat)], [some (99 : Nat)]]⟩ : Dataset Nat)).count
          true = 1 from rfl]
      norm_num [Dataset.height, Config.MISMATCH_THRESHOLD])).1

/-- A row-pair is flagged by the field-wise check iff some positionally
aligned cell pair satisfies `is_diff`. -/
theorem row_mismatch_iff {V : Type} [DecidableEq V] (r1 r2 : List (Option V)) :
    row_mismatch r1 r2 = true ↔ ∃ p ∈ r1.zip r2, is_diff p.1 p.2 = true := by
  rw [row_mismatch, List.any_eq_true]
  constructor
  · rintro ⟨x, hx, hid⟩
    rcases List.mem_iff_getElem?.mp hx with ⟨i, hi⟩
    rcases List.getElem?_zipWith_eq_some.mp hi with ⟨a, b, ha, hb, hfx⟩
    refine ⟨(a, b), List.mem_iff_getElem?.mpr ⟨i, List.getElem?_zip_eq_some.mpr ⟨ha, hb⟩⟩, ?_⟩
    simp only [id_eq] at hid
    rw [hfx]
    exact hid
  · rintro ⟨⟨a, b⟩, hp, hd⟩
    rcases List.mem_iff_getElem?.mp hp with ⟨i, hi⟩
    rcases List.getElem?_zip_eq_some.mp hi with ⟨ha, hb⟩
    exact ⟨true,
      List.mem_iff_getElem?.mpr ⟨i, List.getElem?_zipWith_eq_some.mpr ⟨a, b, ha, hb, hd⟩⟩,
      rfl⟩

/-- C2: under the field-wise strategy a cell is counted as mismatched iff
exactly one of the two values is null, or both are non-null and unequal;
two nulls never mismatch; and an entry of the mismatch indicator is true
iff at least one aligned cell pair of that row is cell-level mismatched. -/
theorem claim_C2 {V : Type} [DecidableEq V] (hash_rows : List (Option V) → Nat)
    (df1 df2 : Dataset V) :
    (∀ a b : Option V, is_diff a b = true ↔
      ((a = none ∧ b ≠ none) ∨ (a ≠ none ∧ b = none) ∨
        (∃ x y, a = some x ∧ b = some y ∧ x ≠ y))) ∧
    is_diff (none : Option V) none = false ∧
    (∀ i : Nat, (mismatch_mask false hash_rows df1 df2)[i]? = some true ↔
      ∃ r1 r2, df1.rows[i]? = some r1 ∧ df2.rows[i]? = some r2 ∧
        ∃ p ∈ r1.zip r2, is_diff p.1 p.2 = true) := by
  refine ⟨?_, rfl, ?_⟩
  · intro a b
    cases a <;> cases b <;> simp [is_diff, neq_fill_false]
  · intro i
    have hm : mismatch_mask false hash_rows df1 df2 =
        List.zipWith row_mismatch df1.rows df2.rows := by
      simp [mismatch_mask]
    rw [hm, List.getElem?_zipWith_eq_some]
    constructor
    · rintro ⟨r1, r2, h1, h2, hr⟩
      exact ⟨r1, r2, h1, h2, (row_mismatch_iff r1 r2).mp hr⟩
    · rintro ⟨r1, r2, h1, h2, hr⟩
      exact ⟨r1, r2, h1, h2, (row_mismatch_iff r1 r2).mpr hr⟩

/-- Witness for C2: two nulls in the same cell position are not a
mismatch, at `V := Nat`. -/
theorem claim_C2_witness : is_diff (none : Option Nat) none = false :=
  (claim_C2 (fun _ => 0) (⟨[], [], []⟩ : Dataset Nat) ⟨[], [], []⟩).2.1

/-- A cell pair passes the field-wise check unscathed iff the two nullable
values are equal (two nulls included). -/
theorem is_diff_eq_false_iff {V : Type} [DecidableEq V] (a b : Option V) :
    is_diff a b = false ↔ a = b := by
  cases a <;> cases b <;> simp [is_diff, neq_fill_false]

/-- Lists of equal length with pointwise-equal zip are equal. -/
theorem list_eq_of_forall_zip_eq {α : Type} :
    ∀ (l1 l2 : List α), l1.length = l2.length →
      (∀ p ∈ l1.zip l2, p.1 = p.2) → l1 = l2
  | [], [], _, _ => rfl
  | [], _ :: _, h, _ => by simp at h
  | _ :: _, [], h, _ => by simp at h
  | a :: l1, b :: l2, h, hz => by
    have hab : a = b := hz (a, b) (by simp [List.zip_cons_cons])
    have hl : l1 = l2 := list_eq_of_forall_zip_eq l1 l2 (by simpa using h)
      (fun p hp => hz p (by simp [List.zip_cons_cons, hp]))
    rw [hab, hl]

/-- A reflexively-applied row predicate that vanishes on the diagonal
contributes no true entries when both frames hold the same rows. -/
theorem zipWith_self_count_zero {α : Type} (g : α → α → Bool)
    (hg : ∀ x, g x x = false) :
    ∀ l : List α, (List.zipWith g l l).count true = 0
  | [] => rfl
  | x :: l => by
    have h := zipWith_self_count_zero g hg l
    show List.count true (g x x :: List.zipWith g l l) = 0
    rw [hg x, List.count_cons, h]
    rfl

/-- The field-wise row check never flags a row against itself. -/
theorem row_mismatch_self {V : Type} [DecidableEq V] (r : List (Option V)) :
    row_mismatch r r = false := by
  rw [Bool.eq_false_iff]
  intro hr
  rcases (row_mismatch_iff r r).mp hr with ⟨p, hp, hd⟩
  rcases List.mem_iff_getElem?.mp hp with ⟨i, hi⟩
  rcases List.getElem?_zip_eq_some.mp hi with ⟨h1, h2⟩
  rw [h1] at h2
  have hpp : p.1 = p.2 := by injection h2
  rw [hpp] at hd
  rw [(is_diff_eq_false_iff p.2 p.2).mpr rfl] at hd
  exact Bool.false_ne_true hd

/-- C1: for equal-shape, equal-column, equal-dtype datasets with zero
field-wise cell differences, `compare` returns "Perfect match" with rate
1.0 and no diff output, whichever strategy (`use_hash` true or false, and
any per-row hash function) is selected. -/
theorem claim_C1 {V : Type} [DecidableEq V] (use_hash : Bool)
    (hash_rows : List (Option V) → Nat) (toStr : V → String)
    (df1 df2 : Dataset V)
    (hw1 : ∀ r ∈ df1.rows, r.length = df1.cols.length)
    (hw2 : ∀ r ∈ df2.rows, r.length = df2.cols.length)
    (h1 : df1.shape = df2.shape) (h2 : df1.cols = df2.cols)
    (h3 : df1.dtypes = df2.dtypes)
    (hzero : ∀ p ∈ df1.rows.zip df2.rows, ∀ q ∈ p.1.zip p.2,
      is_diff q.1 q.2 = false) :
    (compare use_hash hash_rows toStr df1 df2).1.status = "Perfect match" ∧
    (compare use_hash hash_rows toStr df1 df2).1.match_rate = 1 ∧
    (compare use_hash hash_rows toStr df1 df2).2 = none := by
  by_cases h0 : df1.shape.1 = 0
  · rw [compare_empty h1 h2 h3 h0]
    exact ⟨rfl, rfl, rfl⟩
  · rw [compare_to_data h1 h2 h3 h0]
    have hlen : df1.rows.length = df2.rows.length := congrArg Prod.fst h1
    have hrows : df1.rows = df2.rows := by
      apply list_eq_of_forall_zip_eq _ _ hlen
      rintro ⟨r1, r2⟩ hp
      have hmem := List.of_mem_zip hp
      apply list_eq_of_forall_zip_eq
      · rw [hw1 r1 hmem.1, hw2 r2 hmem.2, h2]
      · exact fun q hq => (is_diff_eq_false_iff q.1 q.2).mp (hzero (r1, r2) hp q hq)
    have hcount : (mismatch_mask use_hash hash_rows df1 df2).count true = 0 := by
      cases use_hash
      · have hm : mismatch_mask false hash_rows df1 df2 =
            List.zipWith row_mismatch df1.rows df2.rows := by
          simp [mismatch_mask]
        rw [hm, hrows]
        exact zipWith_self_count_zero _ row_mismatch_self df2.rows
      · have hm : mismatch_mask true hash_rows df1 df2 =
            List.zipWith (fun r1 r2 => hash_rows r1 != hash_rows r2)
              df1.rows df2.rows := by
          simp [mismatch_mask]
        rw [hm, hrows]
        exact zipWith_self_count_zero _ (fun r => by simp) df2.rows
    rw [compare_data_perfect hcount]
    exact ⟨rfl, rfl, rfl⟩

/-- Witness for C1 at a concrete input, exercising the hash strategy with
a nontrivial hash function on identical one-row datasets. -/
theorem claim_C1_witness :
    (compare true (fun r => r.length) toString
      (⟨["a"], ["i64"], [[some (1 : Nat)]]⟩ : Dataset Nat)
      (⟨["a"], ["i64"], [[some (1 : Nat)]]⟩ : Dataset Nat)).1.status =
      "Perfect match" :=
  (claim_C1 true (fun r => r.length) toString
    ⟨["a"], ["i64"], [[some (1 : Nat)]]⟩ ⟨["a"], ["i64"], [[some (1 : Nat)]]⟩
    (by decide) (by decide) rfl rfl rfl (by decide)).1

/-- The boolean sort key, as a proposition: lexicographic ascending on
(row index, column name as text). -/
theorem diff_le_iff (a b : CellDifference) :
    diff_le a b = true ↔
      (a.rowIndex < b.rowIndex ∨
        (a.rowIndex = b.rowIndex ∧ a.columnName ≤ b.columnName)) := by
  simp [diff_le]

theorem diff_le_trans (a b c : CellDifference) :
    diff_le a b → diff_le b c → diff_le a c := by
  intro hab hbc
  rw [diff_le_iff] at *
  rcases hab with h | ⟨he, hs⟩ <;> rcases hbc with h' | ⟨he', hs'⟩
  · exact Or.inl (lt_trans h h')
  · exact Or.inl (he' ▸ h)
  · exact Or.inl (he ▸ h')
  · exact Or.inr ⟨he.trans he', le_trans hs hs'⟩

theorem diff_le_total (a b : CellDifference) : diff_le a b || diff_le b a := by
  rw [Bool.or_eq_true, diff_le_iff, diff_le_iff]
  rcases Nat.lt_trichotomy a.rowIndex b.rowIndex with h | h | h
  · exact Or.inl (Or.inl h)
  · rcases le_total a.columnName b.columnName with hs | hs
    · exact Or.inl (Or.inr ⟨h, hs⟩)
    · exact Or.inr (Or.inr ⟨h.symm, hs⟩)
  · exact Or.inr (Or.inl h)

/-- The melter's output is sorted by its merge-sort key, whatever the
inputs. -/
theorem sorted_generate {V : Type} (toStr : V → String) (df1 df2 : Dataset V)
    (mask : List Bool) :
    (generate_differences_df toStr df1 df2 mask).Pairwise
      (fun a b => a.rowIndex < b.rowIndex ∨
        (a.rowIndex = b.rowIndex ∧ a.columnName ≤ b.columnName)) := by
  have h : (generate_differences_df toStr df1 df2 mask).Pairwise
      (fun a b => diff_le a b = true) :=
    List.sorted_mergeSort diff_le_trans diff_le_total _
  exact h.imp (fun hab => (diff_le_iff _ _).mp hab)

/-- Whatever diff frame `compare` emits is precisely the melter's output
on the strategy's mismatch indicator. -/
theorem diffs_of_compare {V : Type} [DecidableEq V] {use_hash : Bool}
    {hash_rows : List (Option V) → Nat} {toStr : V → String}
    {df1 df2 : Dataset V} {ds : List CellDifference}
    (h : (compare use_hash hash_rows toStr df1 df2).2 = some ds) :
    ds = generate_differences_df toStr df1 df2
      (mismatch_mask use_hash hash_rows df1 df2) := by
  by_cases h1 : df1.shape = df2.shape
  · by_cases h2 : df1.cols = df2.cols
    · by_cases h3 : df1.dtypes = df2.dtypes
      · by_cases h0 : df1.shape.1 = 0
        · rw [compare_empty h1 h2 h3 h0] at h
          exact Option.noConfusion h
        · rw [compare_to_data h1 h2 h3 h0] at h
          by_cases hc : (mismatch_mask use_hash hash_rows df1 df2).count true = 0
          · rw [compare_data_perfect hc] at h
            exact Option.noConfusion h
          · by_cases hth : ((mismatch_mask use_hash hash_rows df1 df2).count true : ℚ) /
                (df1.height : ℚ) > Config.MISMATCH_THRESHOLD
            · rw [compare_data_threshold hc hth] at h
              exact Option.noConfusion h
            · rw [compare_data_within hc hth] at h
              injection h with h'
              exact h'.symm
      · rw [compare_dtypes_ne h1 h2 h3] at h
        exact Option.noConfusion h
    · rw [compare_cols_ne h1 h2] at h
      exact Option.noConfusion h
  · rw [compare_shape_ne h1] at h
    exact Option.noConfusion h

/-- C9: any diff sequence emitted by `compare` is sorted ascending by
(row index, column name), column names compared as text; and `compare` is
a pure function of its inputs, so repeated runs on identical inputs return
the identical result (diff sequence included). -/
theorem claim_C9 {V : Type} [DecidableEq V] (use_hash : Bool)
    (hash_rows : List (Option V) → Nat) (toStr : V → String)
    (df1 df2 : Dataset V) :
    (∀ ds, (compare use_hash hash_rows toStr df1 df2).2 = some ds →
      ds.Pairwise (fun a b => a.rowIndex < b.rowIndex ∨
        (a.rowIndex = b.rowIndex ∧ a.columnName ≤ b.columnName))) ∧
    compare use_hash hash_rows toStr df1 df2 =
      compare use_hash hash_rows toStr df1 df2 := by
  refine ⟨fun ds hds => ?_, rfl⟩
  rw [diffs_of_compare hds]
  exact sorted_generate toStr df1 df2 _

/-- Example first dataset: ten rows, one integer column "a". -/
def exA : Dataset Nat :=
  ⟨["a"], ["i64"],
    [[some 0], [some 1], [some 2], [some 3], [some 4],
     [some 5], [some 6], [some 7], [some 8], [some 9]]⟩

/-- Example second dataset: identical to `exA` except row 3 (ratio
1/10 ≤ threshold, so the diff path runs). -/
def exB : Dataset Nat :=
  ⟨["a"], ["i64"],
    [[some 0], [some 1], [some 2], [some 99], [some 4],
     [some 5], [some 6], [some 7], [some 8], [some 9]]⟩

/-- Witness for C9 at a concrete input on the diff-generation path. -/
theorem claim_C9_witness :
    (generate_differences_df toString exA exB
      (mismatch_mask false (fun _ => 0) exA exB)).Pairwise
      (fun a b => a.rowIndex < b.rowIndex ∨
        (a.rowIndex = b.rowIndex ∧ a.columnName ≤ b.columnName)) :=
  (claim_C9 false (fun _ => 0) toString exA exB).1 _ (by
    rw [compare_to_data (show exA.shape = exB.shape from rfl)
      (show exA.cols = exB.cols from rfl)
      (show exA.dtypes = exB.dtypes from rfl) (by decide),
      compare_data_within (by decide) (by
        rw [show (mismatch_mask false (fun _ => 0) exA exB).count true = 1 from rfl]
        norm_num [Dataset.height, exA, Config.MISMATCH_THRESHOLD])])

/-! ### Membership lemmas for the diff-generation pipeline -/

/-- Membership in the indexed, mask-filtered frame: the retained pairs
are exactly the (original index, row) pairs at mask-true positions. -/
theorem mem_filter_mask_from {α : Type} (n : Nat) (x : α) :
    ∀ (mask : List Bool) (rows : List α) (i : Nat),
      (n, x) ∈ filter_mask_from i mask rows ↔
        ∃ k, mask[k]? = some true ∧ rows[k]? = some x ∧ n = i + k
  | [], rows, i => by
    rw [show filter_mask_from i ([] : List Bool) rows = [] from rfl]
    simp
  | b :: ms, [], i => by
    cases b with
    | false =>
      rw [show filter_mask_from i (false :: ms) ([] : List α) = [] from rfl]
      simp
    | true =>
      rw [show filter_mask_from i (true :: ms) ([] : List α) = [] from rfl]
      simp
  | true :: ms, r :: rs, i => by
    rw [show filter_mask_from i (true :: ms) (r :: rs) =
      (i, r) :: filter_mask_from (i + 1) ms rs from rfl]
    rw [List.mem_cons, mem_filter_mask_from n x ms rs (i + 1)]
    constructor
    · rintro (h | ⟨k, h1, h2, h3⟩)
      · injection h with hn hx
        exact ⟨0, by simp, by simp [hx], by simp [hn]⟩
      · exact ⟨k + 1, by simpa using h1, by simpa using h2, by omega⟩
    · rintro ⟨k, h1, h2, h3⟩
      cases k with
      | zero =>
        left
        simp only [List.getElem?_cons_zero] at h2
        injection h2 with h2'
        simp [h3, h2']
      | succ k =>
        right
        exact ⟨k, by simpa using h1, by simpa using h2, by omega⟩
  | false :: ms, r :: rs, i => by
    rw [show filter_mask_from i (false :: ms) (r :: rs) =
      filter_mask_from (i + 1) ms rs from rfl]
    rw [mem_filter_mask_from n x ms rs (i + 1)]
    constructor
    · rintro ⟨k, h1, h2, h3⟩
      exact ⟨k + 1, by simpa using h1, by simpa using h2, by omega⟩
    · rintro ⟨k, h1, h2, h3⟩
      cases k with
      | zero => simp at h1
      | succ k => exact ⟨k, by simpa using h1, by simpa using h2, by omega⟩

/-- Membership in the column-major unpivot: a long-format record pairs a
retained row with one column (at offset `k` from the running position
`j`) and carries that row's cell for the column. -/
theorem mem_unpivot_from (i : Nat) (c : String) (v : Option String) :
    ∀ (j : Nat) (cols : List String) (rows : List (Nat × List (Option String))),
      (i, c, v) ∈ unpivot_from j cols rows ↔
        ∃ k, cols[k]? = some c ∧
          ∃ r, (i, r) ∈ rows ∧ v = r.getD (j + k) none
  | j, [], rows => by
    rw [show unpivot_from j [] rows = [] from rfl]
    simp
  | j, c0 :: cs, rows => by
    rw [show unpivot_from j (c0 :: cs) rows =
      rows.map (fun p => (p.1, c0, p.2.getD j none)) ++
        unpivot_from (j + 1) cs rows from rfl]
    rw [List.mem_append, List.mem_map, mem_unpivot_from i c v (j + 1) cs rows]
    constructor
    · rintro (⟨⟨a, r⟩, hp, he⟩ | ⟨k, hk, r, hr, he⟩)
      · injection he with h1 hrest
        injection hrest with h2 h3
        subst h1
        subst h2
        exact ⟨0, by simp, r, hp, by simp [← h3]⟩
      · refine ⟨k + 1, by simpa using hk, r, hr, ?_⟩
        rw [show j + (k + 1) = j + 1 + k from by omega]
        exact he
    · rintro ⟨k, hk, r, hr, he⟩
      cases k with
      | zero =>
        left
        refine ⟨(i, r), hr, ?_⟩
        simp only [List.getElem?_cons_zero] at hk
        injection hk with hk'
        rw [hk']
        rw [he]
        simp
      | succ k =>
        right
        refine ⟨k, by simpa using hk, r, hr, ?_⟩
        rw [show j + 1 + k = j + (k + 1) from by omega]
        exact he

/-- A successful key lookup in a melted frame exhibits a member with that
key and value. -/
theorem lookup_cell_eq_some {i : Nat} {c : String} {v2 : Option String}
    {melted : List (Nat × String × Option String)}
    (h : lookup_cell i c melted = some v2) : (i, c, v2) ∈ melted := by
  unfold lookup_cell at h
  rcases hf : melted.find? (fun q => q.1 == i && q.2.1 == c) with _ | q
  · rw [hf] at h
    exact Option.noConfusion h
  · rw [hf] at h
    have hq := List.find?_some hf
    have hmem := List.mem_of_find?_eq_some hf
    obtain ⟨a, b, w⟩ := q
    simp only [Option.map_some'] at h
    injection h with h'
    simp only [Bool.and_eq_true, beq_iff_eq] at hq
    obtain ⟨rfl, rfl⟩ := hq
    rw [← h']
    exact hmem

/-- String-casting a row commutes with indexed access (nulls stay null,
out-of-range access stays null). -/
theorem cast_str_getD {V : Type} (toStr : V → String) :
    ∀ (r : List (Option V)) (k : Nat),
      (cast_str toStr r).getD k none = Option.map toStr (r.getD k none)
  | [], k => by simp [cast_str]
  | a :: r, 0 => by simp [cast_str]
  | a :: r, k + 1 => by
    rw [show cast_str toStr (a :: r) =
      Option.map toStr a :: cast_str toStr r from rfl]
    rw [List.getD_cons_succ, List.getD_cons_succ]
    exact cast_str_getD toStr r k

/-- A cell that survives the string-level re-filter differs field-wise on
the original typed values (string rendering is a function, so equal
values can never render unequal, and it preserves nullness). -/
theorem is_diff_of_cell_filter {V : Type} [DecidableEq V] (toStr : V → String)
    (a b : Option V)
    (h : diff_cell_filter (Option.map toStr a) (Option.map toStr b) = true) :
    is_diff a b = true := by
  cases a with
  | none =>
    cases b with
    | none => simp [diff_cell_filter] at h
    | some y => simp [is_diff]
  | some x =>
    cases b with
    | none => simp [is_diff]
    | some y =>
      simp only [Option.map_some', diff_cell_filter, Option.isNone_some,
        Bool.and_false, Bool.and_true, Bool.not_false, decide_eq_true_eq] at h
      simp only [is_diff, neq_fill_false, Option.isNone_some, Option.isSome_some,
        Bool.and_false, Bool.false_and, Bool.or_self, Bool.false_or,
        decide_eq_true_eq]
      intro he
      exact h (by rw [he])

/-- C3: every record emitted by the diff-generation step refers to a row
flagged true in the mismatch indicator, and to a cell whose two original
(typed) values differ under the field-wise inequality — equal cells,
two-null cells included, are never emitted even from flagged rows; the
record's rendered values are exactly the string casts of that cell pair. -/
theorem claim_C3 {V : Type} [DecidableEq V] (toStr : V → String)
    (df1 df2 : Dataset V) (mask : List Bool)
    (hcols : df1.cols = df2.cols) (hnd : df1.cols.Nodup) :
    ∀ d ∈ generate_differences_df toStr df1 df2 mask,
      mask[d.rowIndex]? = some true ∧
      ∃ j r1 r2, df1.cols[j]? = some d.columnName ∧
        df1.rows[d.rowIndex]? = some r1 ∧ df2.rows[d.rowIndex]? = some r2 ∧
        is_diff (r1.getD j none) (r2.getD j none) = true ∧
        d.valueV1 = Option.map toStr (r1.getD j none) ∧
        d.valueV2 = Option.map toStr (r2.getD j none) := by
  intro d hd
  simp only [generate_differences_df] at hd
  rw [List.mem_mergeSort] at hd
  rcases List.mem_filterMap.mp hd with ⟨q, hqf, hqm⟩
  rcases Option.map_eq_some'.mp hqm with ⟨t, hts, hmk⟩
  subst hmk
  rcases List.mem_filter.mp hqf with ⟨hqj, hflt⟩
  rcases List.mem_filterMap.mp hqj with ⟨e, hem, helk⟩
  rcases Option.map_eq_some'.mp helk with ⟨w2, hlk, heq⟩
  subst heq
  obtain ⟨a, c0, v1⟩ := e
  rcases (mem_unpivot_from a c0 v1 0 df1.cols _).mp hem with ⟨j, hcj, rc1, hrc1m, hv1⟩
  rcases List.mem_map.mp hrc1m with ⟨p1, hp1, hpe1⟩
  obtain ⟨a1, r1⟩ := p1
  injection hpe1 with hq1 hq2
  have hq1' : a1 = a := hq1
  have hq2' : cast_str toStr r1 = rc1 := hq2
  rw [hq1'] at hp1
  subst hq2'
  rcases (mem_filter_mask_from a r1 mask df1.rows 0).mp hp1 with ⟨k, hmask, hrow1, hak⟩
  have hin2 := lookup_cell_eq_some hlk
  rcases (mem_unpivot_from a c0 w2 0 df2.cols _).mp hin2 with ⟨j', hcj', rc2, hrc2m, hv2⟩
  rcases List.mem_map.mp hrc2m with ⟨p2, hp2, hpe2⟩
  obtain ⟨a2, r2⟩ := p2
  injection hpe2 with hq3 hq4
  have hq3' : a2 = a := hq3
  have hq4' : cast_str toStr r2 = rc2 := hq4
  rw [hq3'] at hp2
  subst hq4'
  rcases (mem_filter_mask_from a r2 mask df2.rows 0).mp hp2 with ⟨k', hmask2, hrow2, hak2⟩
  have hj : j = j' := by
    have hcj2 : df1.cols[j']? = some c0 := by
      rw [hcols]
      exact hcj'
    have hlt : j < df1.cols.length := by
      rcases List.getElem?_eq_some_iff.mp hcj with ⟨hh, _⟩
      exact hh
    exact List.getElem?_inj hlt hnd (by rw [hcj, hcj2])
  subst hj
  have hka : a = k := by omega
  have hka2 : a = k' := by omega
  subst hka
  subst hka2
  have hv1' : v1 = Option.map toStr (r1.getD j none) := by
    rw [hv1, Nat.zero_add, cast_str_getD]
  have hv2' : w2 = Option.map toStr (r2.getD j none) := by
    rw [hv2, Nat.zero_add, cast_str_getD]
  have hdiff : is_diff (r1.getD j none) (r2.getD j none) = true := by
    apply is_diff_of_cell_filter toStr
    rw [← hv1', ← hv2']
    exact hflt
  exact ⟨hmask, j, r1, r2, hcj, hrow1, hrow2, hdiff, hv1', hv2'⟩

/-- Witness for C3 at a concrete input: the single emitted record of the
`exA`/`exB` comparison refers to the flagged row 3. -/
theorem claim_C3_witness :
    (mismatch_mask false (fun _ => 0) exA exB)[(⟨3, "a", "i64",
      some "3", some "99"⟩ : CellDifference).rowIndex]? = some true :=
  (claim_C3 toString exA exB (mismatch_mask false (fun _ => 0) exA exB)
    rfl (by decide) ⟨3, "a", "i64", some "3", some "99"⟩
    (by
      simp only [generate_differences_df]
      rw [List.mem_mergeSort]
      decide)).1

end ExcelCompare
